import Mathlib

/-!
# Shallow embedding of `check_linux_metrics.py`

This file embeds the probe logic of `check_linux_metrics.py` (a Nagios-style
Linux metrics plugin) in Lean and proves the specification claims about it.

Modelling conventions:
* Python floats are modelled as `ℚ` (no claim depends on binary rounding).
* Python runtime exceptions (`ZeroDivisionError`, `ValueError`, `IndexError`,
  `KeyError`) are modelled with `Except PyError`; an uncaught exception makes
  the interpreter print a traceback and exit with status 1.
* Filesystem interaction is modelled by passing the parsed content of the
  relevant pseudo-file (and of the interim snapshot file, as `Option` — `none`
  meaning the snapshot file does not exist) as arguments, and by returning the
  list of snapshot writes (`shutil.copyfile` calls) the invocation performs.
-/

/-- The Python exceptions the plugin can raise at runtime. -/
inductive PyError where
  | zeroDivision
  | valueError
  | indexError
  | keyError
deriving DecidableEq

/-- Python `int()` applied to a float truncates toward zero. -/
def pyInt (q : ℚ) : ℤ := q.num.tdiv (q.den : ℤ)

/-- Python list indexing: `l[i]` raises `IndexError` out of bounds. -/
def pyGet {α : Type} (l : List α) (i : ℕ) : Except PyError α :=
  if h : i < l.length then Except.ok (l.get ⟨i, h⟩) else Except.error PyError.indexError

/-- One token of the perfdata trailer: `name=value[;warn;crit[;min;max]]`. -/
structure PerfTok where
  name : String
  value : ℚ
  warnCrit : Option (ℚ × ℚ)
  minMax : Option (ℚ × ℚ)
deriving DecidableEq

/-- The observable outcome of one probe invocation: the first-run bootstrap
message (exit 0), a classified report (exit = status code), a plugin error
(printed message, exit 3), or an uncaught Python exception (traceback, the
interpreter exits 1).  `report` carries the status code, the severity
annotation strings appended to the status line, and the perfdata tokens. -/
inductive ProbeOutcome where
  | firstRun (msg : String)
  | report (code : ℕ) (anns : List String) (perf : List PerfTok)
  | pluginError (msg : String)
  | crash (e : PyError)
deriving DecidableEq

/-- Process exit status of each outcome (uncaught exceptions exit 1). -/
def exitCodeOf : ProbeOutcome → ℕ
  | ProbeOutcome.firstRun _ => 0
  | ProbeOutcome.report code _ _ => code
  | ProbeOutcome.pluginError _ => 3
  | ProbeOutcome.crash _ => 1

/-- Perfdata of an outcome (empty unless a report was produced). -/
def perfOf : ProbeOutcome → List PerfTok
  | ProbeOutcome.report _ _ perf => perf
  | _ => []

/-- First perfdata token with the given name. -/
def perfLookup (toks : List PerfTok) (n : String) : Option PerfTok :=
  toks.find? (fun t => t.name == n)

/-- The scalar threshold comparison shared by `check_cpu`, `check_threads`,
`check_openfiles`, `check_disku`, `check_memory` and `check_swap`
(lines 84-93, 172-181, 213-222, 439-448, 488-497, 548-557):
`if v >= crit: 2 elif v >= warn: 1 else: 0`. -/
def classify (v warn crit : ℚ) : ℕ :=
  if v ≥ crit then 2 else if v ≥ warn then 1 else 0

/-- The severity annotation appended next to the scalar comparison. -/
def scalarAnn (v warn crit : ℚ) : String :=
  if v ≥ crit then "(Critical)" else if v ≥ warn then "(Warning)" else "(OK)"

/-! ## check_cpu (lines 43-108) -/

/-- Line 62: `deltas = [int(b) - int(a) for a, b in zip(line1.split()[1:], line2.split()[1:])]`
where `line1` is the snapshot and `line2` the current first line of `/proc/stat`
(the lists here are the numeric fields after the leading `cpu` token). -/
def cpuDeltas (prev cur : List ℤ) : List ℤ :=
  List.zipWith (fun a b => b - a) prev cur

/-- Line 63: `total = sum(deltas)`. -/
def cpuTotal (prev cur : List ℤ) : ℤ := (cpuDeltas prev cur).sum

/-- Line 64: `percents = [100 - (100 * (float(total - x) / total)) for x in deltas]`.
When `total = 0` and the list is nonempty the first division raises
`ZeroDivisionError`. -/
def cpuPercents (prev cur : List ℤ) : Except PyError (List ℚ) :=
  if cpuTotal prev cur = 0 ∧ cpuDeltas prev cur ≠ [] then
    Except.error PyError.zeroDivision
  else
    Except.ok ((cpuDeltas prev cur).map
      (fun x => 100 - 100 * (((cpuTotal prev cur : ℚ) - (x : ℚ)) / (cpuTotal prev cur : ℚ))))

/-- The `cpu_pcts` dictionary of lines 66-80. -/
structure CpuPcts where
  user : ℚ
  nice : ℚ
  system : ℚ
  idle : ℚ
  iowait : ℚ
  irq : ℚ
  softirq : ℚ
  steal : ℚ
  cpu : ℚ
deriving DecidableEq

/-- Lines 66-80: build `cpu_pcts` from `percents[0]`..`percents[6]`, `steal`
from `percents[7]` when at least 8 entries exist (else 0), and the derived
`cpu_pcts['cpu'] = 100 - cpu_pcts['idle']`.  Fewer than 7 entries raises
`IndexError`. -/
def cpu_pcts (ps : List ℚ) : Except PyError CpuPcts :=
  if 7 ≤ ps.length then
    Except.ok ⟨ps.getD 0 0, ps.getD 1 0, ps.getD 2 0, ps.getD 3 0, ps.getD 4 0,
      ps.getD 5 0, ps.getD 6 0, (if 8 ≤ ps.length then ps.getD 7 0 else 0),
      100 - ps.getD 3 0⟩
  else Except.error PyError.indexError

/-- The whole percentage pipeline of `check_cpu` from a snapshot and a current
reading. -/
def check_cpu_pcts (prev cur : List ℤ) : Except PyError CpuPcts :=
  match cpuPercents prev cur with
  | Except.error e => Except.error e
  | Except.ok ps => cpu_pcts ps

/-- The reported busy value `cpu_pcts['cpu']`. -/
def check_cpu_busy (prev cur : List ℤ) : Except PyError ℚ :=
  match check_cpu_pcts prev cur with
  | Except.error e => Except.error e
  | Except.ok s => Except.ok s.cpu

/-- Lines 97-103: every listed field gets `;warn;crit` appended when thresholds
were supplied. -/
def cpuPerfToks (s : CpuPcts) (wc : Option (ℚ × ℚ)) : List PerfTok :=
  [("cpu", s.cpu), ("user", s.user), ("system", s.system), ("iowait", s.iowait),
   ("nice", s.nice), ("irq", s.irq), ("softirq", s.softirq), ("steal", s.steal)].map
    (fun nv => ⟨nv.1, nv.2, wc, none⟩)

/-- `check_cpu` (lines 43-108).  `store` is the parsed snapshot file content
(`none` when `/var/tmp/linux_metrics/proc_stat` does not exist), `cur` the
current `/proc/stat` first line.  The second component lists the snapshot
writes performed.  The wall-clock `sample_period` is only displayed by this
probe, so it is not a parameter. -/
def check_cpu_run (store : Option (List ℤ)) (cur : List ℤ) (wc : Option (ℚ × ℚ)) :
    ProbeOutcome × List (List ℤ) :=
  match store with
  | none => (ProbeOutcome.firstRun "This was the first run, run again to get values", [cur])
  | some prev =>
    match check_cpu_pcts prev cur with
    | Except.error e => (ProbeOutcome.crash e, [])
    | Except.ok s =>
      match wc with
      | some (w, c) =>
          (ProbeOutcome.report (classify s.cpu w c) [scalarAnn s.cpu w c]
            (cpuPerfToks s (some (w, c))), [cur])
      | none => (ProbeOutcome.report 0 [] (cpuPerfToks s none), [cur])

/-! ## check_procs (lines 237-332) -/

/-- One entry of `/proc` with a numeric name: either its `stat` file could be
read (yielding the state character, field 3 of the stat line) or the process
vanished before the read (`except: continue`, lines 268-272). -/
inductive ProcEntry where
  | unreadable
  | readable (state : Char)
deriving DecidableEq

/-- The state character of a readable entry. -/
def stateOf : ProcEntry → Option Char
  | ProcEntry.unreadable => none
  | ProcEntry.readable s => some s

/-- The states of the entries whose stat file could be read. -/
def readableStates (entries : List ProcEntry) : List Char :=
  entries.filterMap stateOf

/-- A state that is none of `R`, `S`, `D`, `Z` lands in `others` (line 297). -/
def isOtherState (s : Char) : Bool :=
  !(s == 'R' || s == 'S' || s == 'D' || s == 'Z')

/-- The `p` dictionary counts of lines 265-297: `p_total` is incremented for
every numeric `/proc` entry (line 267) before the per-process read is
attempted, while the per-state buckets only count entries whose stat file was
readable. -/
structure ProcsCounts where
  total : ℕ
  running : ℕ
  sleeping : ℕ
  waiting : ℕ
  zombie : ℕ
  others : ℕ
deriving DecidableEq

/-- Lines 265-297 as a function of the enumerated `/proc` entries. -/
def procsTally (entries : List ProcEntry) : ProcsCounts :=
  ⟨entries.length,
   (readableStates entries).count 'R',
   (readableStates entries).count 'S',
   (readableStates entries).count 'D',
   (readableStates entries).count 'Z',
   (readableStates entries).countP isOtherState⟩

/-- `check_procs`/`check_load` threshold tokens: a comma-separated position is
either an empty string (`none`, skipped by `if crit[i] != '' and warn[i] != ''`
resp. truthiness at line 130/305) or a numeric string (`some q`). -/
def pairTok : Option ℚ → Option ℚ → Option (ℚ × ℚ)
  | some w, some c => some (w, c)
  | _, _ => none

/-- One iteration of the classification loop of lines 304-314: on `>= crit`
the status code is set to 2, on `>= warn` it is raised to 1 only when below 1,
and the matching annotation is appended to the status line. -/
def procsStep (st : ℕ × List String) (item : String × ℚ × Option (ℚ × ℚ)) :
    ℕ × List String :=
  match item with
  | (_, _, none) => st
  | (nm, v, some (w, c)) =>
    if v ≥ c then (2, st.2 ++ ["(Critical " ++ nm ++ ")"])
    else if v ≥ w then ((if st.1 < 1 then 1 else st.1), st.2 ++ ["(Warning " ++ nm ++ ")"])
    else (st.1, st.2 ++ ["(OK)"])

/-- The classification loop of `check_procs` (lines 301-314): `status_code`
starts at 0 and the sub-metrics are visited in order. -/
def procsClassify (items : List (String × ℚ × Option (ℚ × ℚ))) : ℕ × List String :=
  items.foldl procsStep (0, [])

/-- Same loop in `check_load` (lines 127-139); the annotations there carry no
sub-metric name. -/
def loadStep (st : ℕ × List String) (item : ℚ × Option (ℚ × ℚ)) : ℕ × List String :=
  match item with
  | (_, none) => st
  | (v, some (w, c)) =>
    if v ≥ c then (2, st.2 ++ ["(Critical)"])
    else if v ≥ w then ((if st.1 < 1 then 1 else st.1), st.2 ++ ["(Warning)"])
    else (st.1, st.2 ++ ["(OK)"])

/-- The classification loop of `check_load` (lines 127-139). -/
def loadClassify (items : List (ℚ × Option (ℚ × ℚ))) : ℕ × List String :=
  items.foldl loadStep (0, [])

/-- `param = ['total', 'running', 'waiting']` with the corresponding `p`
values (line 303). -/
def procsParamValues (t : ProcsCounts) : List (String × ℚ) :=
  [("total", (t.total : ℚ)), ("running", (t.running : ℚ)), ("waiting", (t.waiting : ℚ))]

/-- The sub-metric items the loop of lines 304-314 visits: index `i` ranges
over `range(len(warn))`; the call sites below only reach this with
`warn.length ≤ 3` and `warn.length ≤ crit.length`, matching the indexing the
Python loop performs without raising. -/
def procsItems (t : ProcsCounts) (warn crit : List (Option ℚ)) :
    List (String × ℚ × Option (ℚ × ℚ)) :=
  (List.range warn.length).map (fun i =>
    let nv := (procsParamValues t).getD i ("", 0)
    (nv.1, nv.2, pairTok (warn.getD i none) (crit.getD i none)))

/-- Perfdata value of each `check_procs` token (lines 318-326). -/
def procsValue (t : ProcsCounts) (forksPs : ℚ) : String → ℚ
  | "total" => (t.total : ℚ)
  | "forks" => forksPs
  | "sleeping" => (t.sleeping : ℚ)
  | "running" => (t.running : ℚ)
  | "waiting" => (t.waiting : ℚ)
  | "zombie" => (t.zombie : ℚ)
  | "others" => (t.others : ℚ)
  | _ => 0

/-- Thresholds attached to the i-th of `total`/`running`/`waiting` when the
supplied lists are long enough (the `seq` logic of lines 318-326, under the
equal-length guarantee of `__main__`). -/
def procsThFor (warn crit : List (Option ℚ)) (i : ℕ) : Option (ℚ × ℚ) :=
  if i < warn.length then pairTok (warn.getD i none) (crit.getD i none) else none

/-- The `check_procs` perfdata tokens (lines 318-326). -/
def procsPerfToks (t : ProcsCounts) (forksPs : ℚ)
    (wc : Option (List (Option ℚ) × List (Option ℚ))) : List PerfTok :=
  match wc with
  | none =>
      ["total", "forks", "sleeping", "running", "waiting", "zombie", "others"].map
        (fun x => ⟨x, procsValue t forksPs x, none, none⟩)
  | some (warn, crit) =>
      [⟨"total", procsValue t forksPs "total", procsThFor warn crit 0, none⟩,
       ⟨"forks", forksPs, none, none⟩,
       ⟨"sleeping", procsValue t forksPs "sleeping", none, none⟩,
       ⟨"running", procsValue t forksPs "running", procsThFor warn crit 1, none⟩,
       ⟨"waiting", procsValue t forksPs "waiting", procsThFor warn crit 2, none⟩,
       ⟨"zombie", procsValue t forksPs "zombie", none, none⟩,
       ⟨"others", procsValue t forksPs "others", none, none⟩]

/-- `check_procs` (lines 237-332).  `store` is the `processes` counter of the
snapshot copy of `/proc/stat` (`none` when the snapshot file is missing),
`curForks` the current counter, `sp` the elapsed wall-clock period.  Line 261
divides by `sp`, raising `ZeroDivisionError` when it is zero.  The length
guard mirrors the `IndexError` the loop of lines 304-314 raises when `crit` is
shorter than `warn` or more than the three named sub-metrics are supplied. -/
def check_procs_run (store : Option ℤ) (curForks : ℤ) (sp : ℚ)
    (entries : List ProcEntry) (wc : Option (List (Option ℚ) × List (Option ℚ))) :
    ProbeOutcome × List ℤ :=
  match store with
  | none => (ProbeOutcome.firstRun "This was the first run, run again to get values", [curForks])
  | some prevForks =>
    if sp = 0 then (ProbeOutcome.crash PyError.zeroDivision, [])
    else
      let forksPs : ℚ := ((curForks - prevForks : ℤ) : ℚ) / sp
      let t := procsTally entries
      match wc with
      | none => (ProbeOutcome.report 0 [] (procsPerfToks t forksPs none), [curForks])
      | some (warn, crit) =>
        if warn.length ≤ 3 ∧ warn.length ≤ crit.length then
          let r := procsClassify (procsItems t warn crit)
          (ProbeOutcome.report r.1 r.2 (procsPerfToks t forksPs (some (warn, crit))),
           [curForks])
        else (ProbeOutcome.crash PyError.indexError, [])

/-! ## check_diskio (lines 334-417) -/

/-- The six rate fields of lines 380-387 with their positional index in the
`/proc/diskstats` line after the device name. -/
def diskioFields : List (String × ℕ) :=
  [("read_operations", 0), ("read_sectors", 2), ("read_time", 3),
   ("write_operations", 4), ("write_sectors", 6), ("write_time", 7)]

/-- Lines 380-387: each rate is `(int(proc_line[i]) - int(interim_line[i])) / sample_period`;
a zero sample period raises `ZeroDivisionError` at the first field. -/
def check_diskio_core (procLine interimLine : ℕ → ℤ) (sp : ℚ) :
    Except PyError (List (String × ℚ)) :=
  if sp = 0 then Except.error PyError.zeroDivision
  else Except.ok (diskioFields.map
    (fun f => (f.1, ((procLine f.2 - interimLine f.2 : ℤ) : ℚ) / sp)))

/-- Value of a named rate out of the computed list. -/
def diskioRate (rates : List (String × ℚ)) (n : String) : ℚ :=
  ((rates.find? (fun r => r.1 == n)).getD (n, 0)).2

/-- Lines 391-400 of `check_diskio`: the pair comparison of the read/write
sector rates against the tuple thresholds — `>= crit[i]` gives CRITICAL,
else `>= warn[i]` gives WARNING, else OK. -/
def diskioPairClassify (rs ws : ℚ) (wc : Option ((ℚ × ℚ) × (ℚ × ℚ))) :
    ℕ × List String :=
  match wc with
  | some ((w0, w1), (c0, c1)) =>
    if rs ≥ c0 ∨ ws ≥ c1 then (2, ["(Critical)"])
    else if rs ≥ w0 ∨ ws ≥ w1 then (1, ["(Warning)"])
    else (0, ["(OK)"])
  | none => (0, [])

/-- `check_diskio` (lines 334-417).  The path-resolution of lines 339-347 and
the scan of `/proc/diskstats` (lines 349-362) are summarised by `found`
(whether a line for the device exists) and `procLine` (its fields); note the
device lookup and its `exit(3)` happen before the snapshot-file check of line
365, so a missing device never bootstraps.  `store` is the device line of the
snapshot copy. -/
def check_diskio_run (device : String) (found : Bool) (store : Option (ℕ → ℤ))
    (procLine : ℕ → ℤ) (sp : ℚ) (wc : Option ((ℚ × ℚ) × (ℚ × ℚ))) :
    ProbeOutcome × List (ℕ → ℤ) :=
  if found = false then
    (ProbeOutcome.pluginError ("Plugin Error: Block device not found: (" ++ device ++ ")"), [])
  else
    match store with
    | none =>
        (ProbeOutcome.firstRun
          ("This was the first run, run again to get values: diskio(" ++ device ++ ")"),
         [procLine])
    | some interimLine =>
      match check_diskio_core procLine interimLine sp with
      | Except.error e => (ProbeOutcome.crash e, [])
      | Except.ok rates =>
        let rs := diskioRate rates "read_sectors"
        let ws := diskioRate rates "write_sectors"
        let codeAnns : ℕ × List String := diskioPairClassify rs ws wc
        let perf := rates.map (fun r =>
          (⟨r.1, r.2,
            (match wc with
             | some ((w0, w1), (c0, c1)) =>
               if r.1 == "read_sectors" then some (w0, c0)
               else if r.1 == "write_sectors" then some (w1, c1)
               else none
             | none => none), none⟩ : PerfTok))
        (ProbeOutcome.report codeAnns.1 codeAnns.2 perf, [procLine])

/-! ## check_net (lines 578-656) -/

/-- The sixteen counters of a `/proc/net/dev` interface line (lines 600-603);
the same record also holds the per-field deltas `int_d`. -/
structure NetCounters where
  r_bytes : ℤ
  r_packets : ℤ
  r_errs : ℤ
  r_drop : ℤ
  r_fifo : ℤ
  r_frame : ℤ
  r_compressed : ℤ
  r_multicast : ℤ
  t_bytes : ℤ
  t_packets : ℤ
  t_errs : ℤ
  t_drop : ℤ
  t_fifo : ℤ
  t_colls : ℤ
  t_carrier : ℤ
  t_compressed : ℤ
deriving DecidableEq

/-- Lines 604-608: `int_d[x] = int_t[x] - interim_value` for each field. -/
def netDelta (t i : NetCounters) : NetCounters :=
  ⟨t.r_bytes - i.r_bytes, t.r_packets - i.r_packets, t.r_errs - i.r_errs,
   t.r_drop - i.r_drop, t.r_fifo - i.r_fifo, t.r_frame - i.r_frame,
   t.r_compressed - i.r_compressed, t.r_multicast - i.r_multicast,
   t.t_bytes - i.t_bytes, t.t_packets - i.t_packets, t.t_errs - i.t_errs,
   t.t_drop - i.t_drop, t.t_fifo - i.t_fifo, t.t_colls - i.t_colls,
   t.t_carrier - i.t_carrier, t.t_compressed - i.t_compressed⟩

/-- The hard-error counters inspected at line 626, in loop order. -/
def netErrorFields (d : NetCounters) : List ℤ :=
  [d.r_errs, d.r_drop, d.r_fifo, d.r_frame, d.t_errs, d.t_drop, d.t_fifo,
   d.t_colls, d.t_carrier]

/-- One iteration of lines 626-630: a strictly positive delta is added to
`PK_ERRORS` and forces `status_code = 2`. -/
def netErrStep (pc : ℤ × ℕ) (x : ℤ) : ℤ × ℕ :=
  if x > 0 then (pc.1 + x, 2) else pc

/-- The whole error loop, starting from `PK_ERRORS = 0` and `status_code = 0`
(lines 579 and 625). -/
def netErrFold (l : List ℤ) : ℤ × ℕ :=
  l.foldl netErrStep (0, 0)

/-- Line 616: `RX_MBps`. -/
def netRxMBps (d : NetCounters) (sp : ℚ) : ℚ := (d.r_bytes : ℚ) / 1024 / 1024 / sp

/-- Line 617: `TX_MBps`. -/
def netTxMBps (d : NetCounters) (sp : ℚ) : ℚ := (d.t_bytes : ℚ) / 1024 / 1024 / sp

/-- Lines 632-641 of `check_net`: the bandwidth comparison of the RX/TX MB/s
rates against the tuple thresholds, entered only when thresholds were supplied
and `PK_ERRORS == 0` — `>= crit[i]` gives CRITICAL, else `>= warn[i]` raises
the code to WARNING when it is below 1.  `code` is the status code after the
error loop and `pk` the accumulated `PK_ERRORS`.  The returned Bool records
whether the bandwidth thresholds were evaluated. -/
def netBwClassify (rx tx : ℚ) (code : ℕ) (pk : ℤ)
    (wc : Option ((ℚ × ℚ) × (ℚ × ℚ))) : ℕ × Bool × List String :=
  match wc with
  | some ((w0, w1), (c0, c1)) =>
    if pk = 0 then
      if rx ≥ c0 ∨ tx ≥ c1 then (2, true, ["(Critical BW)"])
      else if rx ≥ w0 ∨ tx ≥ w1 then
        ((if code < 1 then 1 else code), true, ["(Warning BW)"])
      else (code, true, ["(OK)"])
    else (code, false, [])
  | none => (code, false, [])

/-- Lines 616-641 of `check_net` on the computed deltas: the rate divisions
(raising `ZeroDivisionError` on a zero period), the error loop, and the
bandwidth classification of `netBwClassify`. -/
def check_net_core (d : NetCounters) (sp : ℚ) (wc : Option ((ℚ × ℚ) × (ℚ × ℚ))) :
    Except PyError (ℕ × Bool × List String) :=
  if sp = 0 then Except.error PyError.zeroDivision
  else
    Except.ok (netBwClassify (netRxMBps d sp) (netTxMBps d sp)
      (netErrFold (netErrorFields d)).2 (netErrFold (netErrorFields d)).1 wc)

/-- Perfdata tokens of lines 643-650. -/
def netPerfToks (d : NetCounters) (sp : ℚ) (wc : Option ((ℚ × ℚ) × (ℚ × ℚ))) :
    List PerfTok :=
  [⟨"RX_MBps", netRxMBps d sp,
     (match wc with | some ((w0, _), (c0, _)) => some (w0, c0) | none => none), none⟩,
   ⟨"RX_PKps", (d.r_packets : ℚ) / sp, none, none⟩,
   ⟨"TX_MBps", netTxMBps d sp,
     (match wc with | some ((_, w1), (_, c1)) => some (w1, c1) | none => none), none⟩,
   ⟨"TX_PKps", (d.t_packets : ℚ) / sp, none, none⟩,
   ⟨"PK_ERRORS", ((netErrFold (netErrorFields d)).1 : ℚ), none, none⟩]

/-- `check_net` (lines 578-656).  The snapshot-file check of line 584 precedes
the interface lookup, so a missing snapshot always bootstraps.  `store` is the
interface line of the snapshot copy of `/proc/net/dev` (`some none` when the
file exists but lacks the interface), `cur` the interface line of the current
file.  An interface absent from the current file but present in the snapshot
raises `KeyError` at line 608 (`int_t[x]` on an empty dict); absent from the
snapshot (or from both) it yields the device-not-found plugin error of
lines 612-614. -/
def check_net_run (iface : String) (store : Option (Option NetCounters))
    (cur : Option NetCounters) (sp : ℚ) (wc : Option ((ℚ × ℚ) × (ℚ × ℚ))) :
    ProbeOutcome × List (Option NetCounters) :=
  match store with
  | none =>
      (ProbeOutcome.firstRun ("This was the first run, run again to get values: net:" ++ iface),
       [cur])
  | some interim =>
    match cur, interim with
    | some t, some i =>
      match check_net_core (netDelta t i) sp wc with
      | Except.error e => (ProbeOutcome.crash e, [])
      | Except.ok r =>
          (ProbeOutcome.report r.1 r.2.2 (netPerfToks (netDelta t i) sp wc), [cur])
    | none, some _ => (ProbeOutcome.crash PyError.keyError, [])
    | _, none =>
        (ProbeOutcome.pluginError ("Plugin Error: Network device not found: (" ++ iface ++ ")"), [])

/-! ## check_memory (lines 459-516) and check_swap (lines 518-576) -/

/-- The `/proc/meminfo` fields `check_memory` reads (lines 465-476), in kB. -/
structure Meminfo where
  total : ℤ
  active : ℤ
  free : ℤ
  cached : ℤ
  buffers : ℤ
deriving DecidableEq

/-- Line 479: `m['total']` in MB. -/
def memTotalMB (mi : Meminfo) : ℚ := (mi.total : ℚ) / 1024

/-- The used amount in kB (numerator of lines 482-483). -/
def memUsedKB (mi : Meminfo) : ℤ := mi.total - mi.free - mi.cached - mi.buffers

/-- Line 482: `m['used']` in MB. -/
def memUsedMB (mi : Meminfo) : ℚ := ((memUsedKB mi : ℤ) : ℚ) / 1024

/-- Line 481: `m['cached']` in MB. -/
def memCachedMB (mi : Meminfo) : ℚ := ((mi.cached + mi.buffers : ℤ) : ℚ) / 1024

/-- Line 480: `m['active']` in MB. -/
def memActiveMB (mi : Meminfo) : ℚ := (mi.active : ℚ) / 1024

/-- Line 483: `m['used_p']`, the used percentage; dividing by `mem['total']`
raises `ZeroDivisionError` when it is zero. -/
def memUsedP (mi : Meminfo) : ℚ := ((memUsedKB mi : ℤ) : ℚ) / (mi.total : ℚ) * 100

/-- The `check_memory` perfdata tokens (lines 501-511): only `used` carries
thresholds — the absolute megabyte values `int(m['total'] * float(warn) / 100)`
and `int(m['total'] * float(crit) / 100)` — plus the `;0;int(m['total'])`
min/max pair. -/
def memPerfToks (mi : Meminfo) (wc : Option (ℚ × ℚ)) : List PerfTok :=
  [⟨"used", memUsedMB mi,
     (match wc with
      | some (w, c) =>
          some (((pyInt (memTotalMB mi * w / 100) : ℤ) : ℚ),
                ((pyInt (memTotalMB mi * c / 100) : ℤ) : ℚ))
      | none => none),
     some (0, ((pyInt (memTotalMB mi) : ℤ) : ℚ))⟩,
   ⟨"cached", memCachedMB mi, none, none⟩,
   ⟨"active", memActiveMB mi, none, none⟩]

/-- `check_memory` (lines 459-516): classification compares the used
percentage against the supplied percentage thresholds (lines 488-497). -/
def check_memory (mi : Meminfo) (wc : Option (ℚ × ℚ)) : ProbeOutcome :=
  if mi.total = 0 then ProbeOutcome.crash PyError.zeroDivision
  else
    match wc with
    | some (w, c) =>
        ProbeOutcome.report (classify (memUsedP mi) w c) [scalarAnn (memUsedP mi) w c]
          (memPerfToks mi (some (w, c)))
    | none => ProbeOutcome.report 0 [] (memPerfToks mi none)

/-- The `/proc/meminfo` fields `check_swap` reads (lines 524-531), in kB. -/
structure SwapInfo where
  total : ℤ
  free : ℤ
  cached : ℤ
deriving DecidableEq

/-- Line 540: `s['total']` in MB. -/
def swapTotalMB (si : SwapInfo) : ℚ := (si.total : ℚ) / 1024

/-- The used swap in kB (numerator of lines 542-543). -/
def swapUsedKB (si : SwapInfo) : ℤ := si.total - si.free - si.cached

/-- Line 542: `s['used']` in MB. -/
def swapUsedMB (si : SwapInfo) : ℚ := ((swapUsedKB si : ℤ) : ℚ) / 1024

/-- Line 541: `s['cached']` in MB. -/
def swapCachedMB (si : SwapInfo) : ℚ := (si.cached : ℚ) / 1024

/-- Line 543: `s['used_p']`, the used-swap percentage. -/
def swapUsedP (si : SwapInfo) : ℚ := ((swapUsedKB si : ℤ) : ℚ) / (si.total : ℚ) * 100

/-- The `check_swap` perfdata tokens (lines 561-571), same shape as memory. -/
def swapPerfToks (si : SwapInfo) (wc : Option (ℚ × ℚ)) : List PerfTok :=
  [⟨"used", swapUsedMB si,
     (match wc with
      | some (w, c) =>
          some (((pyInt (swapTotalMB si * w / 100) : ℤ) : ℚ),
                ((pyInt (swapTotalMB si * c / 100) : ℤ) : ℚ))
      | none => none),
     some (0, ((pyInt (swapTotalMB si) : ℤ) : ℚ))⟩,
   ⟨"cached", swapCachedMB si, none, none⟩]

/-- `check_swap` (lines 518-576): a zero `SwapTotal` short-circuits at
lines 533-537 to status 0 with the explanatory message and an empty perfdata
string, before any threshold is considered. -/
def check_swap (si : SwapInfo) (wc : Option (ℚ × ℚ)) : ProbeOutcome :=
  if si.total = 0 then
    ProbeOutcome.report 0 ["No swap space configured on this system"] []
  else
    match wc with
    | some (w, c) =>
        ProbeOutcome.report (classify (swapUsedP si) w c) [scalarAnn (swapUsedP si) w c]
          (swapPerfToks si (some (w, c)))
    | none => ProbeOutcome.report 0 [] (swapPerfToks si none)

/-! ## `__main__` argument validation (lines 658-762) -/

/-- A command-line threshold token as seen by `float()`: a numeric string, the
empty string, or a non-numeric string (the latter two raise `ValueError`). -/
inductive PyTok where
  | num (q : ℚ)
  | empty
  | junk
deriving DecidableEq

/-- Python `float()` on a token. -/
def pyFloat : PyTok → Except PyError ℚ
  | PyTok.num q => Except.ok q
  | PyTok.empty => Except.error PyError.valueError
  | PyTok.junk => Except.error PyError.valueError

/-- Result of the `__main__` validation for a scalar-threshold probe. -/
inductive ScalarDispatch where
  | runProbe (wc : Option (ℚ × ℚ))
  | reject
  | crash (e : PyError)
deriving DecidableEq

/-- The `__main__` branch for `cpu`, `threads`, `files`, `memory`, `swap`
(lines 663-670 etc.): no arguments runs the probe unthresholded; exactly two
arguments run it when `float(args[1]) > float(args[0])` (note `args[1]` is
converted first); any other shape, or a false comparison, prints the invalid
arguments error and exits 3 before the probe reads anything; a token that does
not parse raises `ValueError` uncaught. -/
def scalarArgsDispatch (args : List PyTok) : ScalarDispatch :=
  match args with
  | [] => ScalarDispatch.runProbe none
  | [w, c] =>
    match pyFloat c with
    | Except.error e => ScalarDispatch.crash e
    | Except.ok cv =>
      match pyFloat w with
      | Except.error e => ScalarDispatch.crash e
      | Except.ok wv =>
          if cv > wv then ScalarDispatch.runProbe (some (wv, cv)) else ScalarDispatch.reject
  | _ => ScalarDispatch.reject

/-- `any(float(w) > float(c) for w, c in zip(warn_arr, crit_arr))`
(lines 678, 689, 718, 756): pairs are evaluated left to right, stopping at the
first strictly-greater pair; a parse failure before that raises. -/
def anyPairGT : List (PyTok × PyTok) → Except PyError Bool
  | [] => Except.ok false
  | (w, c) :: rest =>
    match pyFloat w with
    | Except.error e => Except.error e
    | Except.ok wv =>
      match pyFloat c with
      | Except.error e => Except.error e
      | Except.ok cv => if wv > cv then Except.ok true else anyPairGT rest

/-- Result of the `__main__` validation for a tuple-threshold probe.
`fallthrough` happens for `procs`/`load` (and after the device argument for
`diskio`/`network`) with an unexpected argument count: those branches have no
`else`, so the script falls off the end and exits 0 without doing anything. -/
inductive TupleDispatch where
  | runProbe (wc : Option (List PyTok × List PyTok))
  | reject
  | crash (e : PyError)
  | fallthrough
deriving DecidableEq

/-- The `__main__` branch for `procs` and `load` (lines 672-681, 683-692), and
the threshold part of `diskio`/`network` (lines 712-721, 750-759): the two
comma-split lists are rejected (error printed, exit 3, probe never invoked)
when their lengths differ or some `float(w) > float(c)`; otherwise the probe
runs with the token lists. -/
def tupleArgsDispatch (args : List (List PyTok)) : TupleDispatch :=
  match args with
  | [] => TupleDispatch.runProbe none
  | [wa, ca] =>
    if wa.length ≠ ca.length then TupleDispatch.reject
    else
      match anyPairGT (wa.zip ca) with
      | Except.error e => TupleDispatch.crash e
      | Except.ok true => TupleDispatch.reject
      | Except.ok false => TupleDispatch.runProbe (some (wa, ca))
  | _ => TupleDispatch.fallthrough

/-! ## Helper lemmas -/

theorem list_map_ext {α β : Type} (f g : α → β) :
    ∀ l : List α, (∀ a ∈ l, f a = g a) → l.map f = l.map g := by
  intro l
  induction l with
  | nil => intro _; rfl
  | cons a t ih =>
      intro h
      simp only [List.map_cons]
      rw [h a (by simp), ih (fun x hx => h x (by simp [hx]))]

/-- The individual severity one sub-metric would receive on its own.  This is
the spec's vocabulary ("maximum severity over all evaluated sub-metrics"), to
be compared with the loop the code runs. -/
def specSubSeverity : String × ℚ × Option (ℚ × ℚ) → ℕ
  | (_, _, none) => 0
  | (_, v, some (w, c)) => if v ≥ c then 2 else if v ≥ w then 1 else 0

/-- Individual sub-metric severity for the `check_load` item shape. -/
def specLoadSeverity : ℚ × Option (ℚ × ℚ) → ℕ
  | (_, none) => 0
  | (v, some (w, c)) => if v ≥ c then 2 else if v ≥ w then 1 else 0

theorem procsStep_fst (st : ℕ × List String) (it : String × ℚ × Option (ℚ × ℚ))
    (h : st.1 ≤ 2) :
    (procsStep st it).1 = max st.1 (specSubSeverity it) ∧ (procsStep st it).1 ≤ 2 := by
  obtain ⟨nm, v, wc⟩ := it
  rcases wc with _ | ⟨w, c⟩
  · constructor <;> simp [procsStep, specSubSeverity] <;> omega
  · by_cases h1 : v ≥ c
    · constructor <;> simp [procsStep, specSubSeverity, h1] <;> omega
    · by_cases h2 : v ≥ w
      · constructor <;> simp [procsStep, specSubSeverity, h1, h2] <;> (try split) <;> omega
      · constructor <;> simp [procsStep, specSubSeverity, h1, h2] <;> omega

theorem procsFold_max (items : List (String × ℚ × Option (ℚ × ℚ))) :
    ∀ code anns, code ≤ 2 →
      (items.foldl procsStep (code, anns)).1 = (items.map specSubSeverity).foldl max code := by
  induction items with
  | nil => intro c a _; rfl
  | cons it rest ih =>
      intro c a h
      simp only [List.foldl_cons, List.map_cons]
      obtain ⟨h1, h2⟩ := procsStep_fst (c, a) it h
      have hrec := ih (procsStep (c, a) it).1 (procsStep (c, a) it).2 h2
      rw [Prod.mk.eta] at hrec
      rw [hrec, h1]

theorem loadStep_fst (st : ℕ × List String) (it : ℚ × Option (ℚ × ℚ)) (h : st.1 ≤ 2) :
    (loadStep st it).1 = max st.1 (specLoadSeverity it) ∧ (loadStep st it).1 ≤ 2 := by
  obtain ⟨v, wc⟩ := it
  rcases wc with _ | ⟨w, c⟩
  · constructor <;> simp [loadStep, specLoadSeverity] <;> omega
  · by_cases h1 : v ≥ c
    · constructor <;> simp [loadStep, specLoadSeverity, h1] <;> omega
    · by_cases h2 : v ≥ w
      · constructor <;> simp [loadStep, specLoadSeverity, h1, h2] <;> (try split) <;> omega
      · constructor <;> simp [loadStep, specLoadSeverity, h1, h2] <;> omega

theorem loadFold_max (items : List (ℚ × Option (ℚ × ℚ))) :
    ∀ code anns, code ≤ 2 →
      (items.foldl loadStep (code, anns)).1 = (items.map specLoadSeverity).foldl max code := by
  induction items with
  | nil => intro c a _; rfl
  | cons it rest ih =>
      intro c a h
      simp only [List.foldl_cons, List.map_cons]
      obtain ⟨h1, h2⟩ := loadStep_fst (c, a) it h
      have hrec := ih (loadStep (c, a) it).1 (loadStep (c, a) it).2 h2
      rw [Prod.mk.eta] at hrec
      rw [hrec, h1]

theorem netErrFold_ge (l : List ℤ) : ∀ p n, p ≤ (l.foldl netErrStep (p, n)).1 := by
  induction l with
  | nil => intro p n; exact le_rfl
  | cons x rest ih =>
      intro p n
      simp only [List.foldl_cons, netErrStep]
      by_cases h : x > 0
      · simp only [if_pos h]
        calc p ≤ p + x := by omega
        _ ≤ (rest.foldl netErrStep (p + x, 2)).1 := ih (p + x) 2
      · simp only [if_neg h]
        exact ih p n

theorem netErrFold_code2 (l : List ℤ) : ∀ p, (l.foldl netErrStep (p, 2)).2 = 2 := by
  induction l with
  | nil => intro p; rfl
  | cons x rest ih =>
      intro p
      simp only [List.foldl_cons, netErrStep]
      by_cases h : x > 0
      · simp only [if_pos h]; exact ih (p + x)
      · simp only [if_neg h]; exact ih p

theorem netErrFold_pos (l : List ℤ) :
    ∀ p, 0 ≤ p → (∀ x ∈ l, 0 ≤ x) → (∃ x ∈ l, x ≠ 0) →
      0 < (l.foldl netErrStep (p, 0)).1 ∧ (l.foldl netErrStep (p, 0)).2 = 2 := by
  induction l with
  | nil => intro p _ _ hex; simp at hex
  | cons x rest ih =>
      intro p hp hall hex
      have hx0 : 0 ≤ x := hall x (by simp)
      simp only [List.foldl_cons, netErrStep]
      by_cases h : x > 0
      · simp only [if_pos h]
        refine ⟨lt_of_lt_of_le (by omega) (netErrFold_ge rest (p + x) 2), netErrFold_code2 rest (p + x)⟩
      · have hx : x = 0 := by omega
        simp only [if_neg h]
        obtain ⟨y, hy, hyne⟩ := hex
        rcases List.mem_cons.mp hy with rfl | hmem
        · exact absurd hx hyne
        · exact ih p hp (fun z hz => hall z (by simp [hz])) ⟨y, hmem, hyne⟩

theorem anyPairGT_num (l : List (ℚ × ℚ)) :
    anyPairGT (l.map (Prod.map PyTok.num PyTok.num)) =
      Except.ok (l.any (fun p => decide (p.1 > p.2))) := by
  induction l with
  | nil => rfl
  | cons p rest ih =>
      obtain ⟨a, b⟩ := p
      by_cases h : a > b
      · simp [anyPairGT, pyFloat, Prod.map, h]
      · simp [anyPairGT, pyFloat, Prod.map, h, ih]

theorem charStates_partition (rs : List Char) :
    rs.count 'R' + rs.count 'S' + rs.count 'D' + rs.count 'Z' + rs.countP isOtherState
      = rs.length := by
  induction rs with
  | nil => rfl
  | cons s rest ih =>
      simp only [List.count_cons, List.countP_cons, List.length_cons, isOtherState]
      by_cases h1 : s = 'R' <;> by_cases h2 : s = 'S' <;> by_cases h3 : s = 'D' <;>
        by_cases h4 : s = 'Z' <;> simp_all <;> omega

theorem readableStates_length (entries : List ProcEntry) :
    (readableStates entries).length ≤ entries.length
    ∧ ((readableStates entries).length = entries.length ↔
        ∀ e ∈ entries, e ≠ ProcEntry.unreadable) := by
  induction entries with
  | nil => simp [readableStates]
  | cons e rest ih =>
      cases e with
      | unreadable =>
          have h1 : readableStates (ProcEntry.unreadable :: rest) = readableStates rest := rfl
          rw [h1]
          constructor
          · calc (readableStates rest).length ≤ rest.length := ih.1
            _ ≤ (ProcEntry.unreadable :: rest).length := by simp
          · constructor
            · intro h
              exfalso
              have := ih.1
              simp only [List.length_cons] at h
              omega
            · intro h
              exact absurd rfl (h ProcEntry.unreadable (by simp))
      | readable s =>
          have h1 : readableStates (ProcEntry.readable s :: rest) = s :: readableStates rest := rfl
          rw [h1]
          constructor
          · simpa using ih.1
          · simp only [List.length_cons, Nat.add_right_cancel_iff]
            rw [ih.2]
            constructor
            · intro h e he
              rcases List.mem_cons.mp he with rfl | hmem
              · intro hfalse; cases hfalse
              · exact h e hmem
            · intro h e he
              exact h e (by simp [he])

/-! ## The claims -/

/-- C1 (code_bug evaluation): a zero total tick delta in `check_cpu`, or a zero
elapsed period in `check_diskio`, raises `ZeroDivisionError` — uncaught, so the
interpreter exits with status 1 and a traceback, not with the clean
`InsufficientSample` exit 3 the spec prescribes — and a negative elapsed period
does not fail at all: `check_diskio` happily reports negative rates. -/
theorem insufficient_sample_crash :
    cpuPercents [100, 0, 50, 850, 0, 0, 0] [100, 0, 50, 850, 0, 0, 0]
      = Except.error PyError.zeroDivision
    ∧ check_cpu_run (some [100, 0, 50, 850, 0, 0, 0]) [100, 0, 50, 850, 0, 0, 0] none
      = (ProbeOutcome.crash PyError.zeroDivision, [])
    ∧ check_diskio_core (fun k => (k : ℤ) + 1) (fun _ => 0) 0
      = Except.error PyError.zeroDivision
    ∧ check_diskio_core (fun k => (k : ℤ) + 1) (fun _ => 0) (-1)
      = Except.ok [("read_operations", -1), ("read_sectors", -3), ("read_time", -4),
                   ("write_operations", -5), ("write_sectors", -7), ("write_time", -8)]
    ∧ exitCodeOf (ProbeOutcome.crash PyError.zeroDivision) = 1 := by
  refine ⟨rfl, rfl, rfl, ?_, rfl⟩
  norm_num [check_diskio_core, diskioFields]

/-- C2 counterexample: `procs` invoked with `warn = "5"`, `crit = "5"` — a
threshold pair with `crit = warn`, violating the strict `crit > warn`
requirement — is NOT rejected by `__main__`: the validation accepts it and the
probe is invoked, instead of printing an error and exiting 3. -/
theorem tuple_equal_thresholds_accepted :
    tupleArgsDispatch [[PyTok.num 5], [PyTok.num 5]]
      = TupleDispatch.runProbe (some ([PyTok.num 5], [PyTok.num 5]))
    ∧ ¬ ((5 : ℚ) > 5) := by
  constructor
  · rfl
  · norm_num

/-- C2 (amended): scalar probes with two numeric arguments reject (error
message, exit 3, probe never invoked) exactly when `crit ≤ warn`; tuple probes
reject exactly when the comma-split lists differ in length or some warn
element is strictly greater than its crit element — a pair with
`warn = crit` is accepted and measurement proceeds; an argument that does not
parse as a number raises an uncaught `ValueError` instead of the clean
exit 3. -/
theorem argument_validation_amended :
    (∀ w c : ℚ, c ≤ w →
        scalarArgsDispatch [PyTok.num w, PyTok.num c] = ScalarDispatch.reject)
    ∧ (∀ w c : ℚ, w < c →
        scalarArgsDispatch [PyTok.num w, PyTok.num c] = ScalarDispatch.runProbe (some (w, c)))
    ∧ (∀ t : PyTok, scalarArgsDispatch [PyTok.junk, t] = ScalarDispatch.crash PyError.valueError)
    ∧ (∀ q : ℚ, scalarArgsDispatch [PyTok.num q, PyTok.junk] = ScalarDispatch.crash PyError.valueError)
    ∧ (∀ wa ca : List PyTok, wa.length ≠ ca.length →
        tupleArgsDispatch [wa, ca] = TupleDispatch.reject)
    ∧ (∀ wl cl : List ℚ, wl.length = cl.length →
        tupleArgsDispatch [wl.map PyTok.num, cl.map PyTok.num] =
          (if (wl.zip cl).any (fun p => decide (p.1 > p.2)) then TupleDispatch.reject
           else TupleDispatch.runProbe (some (wl.map PyTok.num, cl.map PyTok.num))))
    ∧ tupleArgsDispatch [[PyTok.junk], [PyTok.num 5]] = TupleDispatch.crash PyError.valueError := by
  refine ⟨?_, ?_, ?_, ?_, ?_, ?_, rfl⟩
  · intro w c h
    simp [scalarArgsDispatch, pyFloat, not_lt.mpr h]
  · intro w c h
    simp [scalarArgsDispatch, pyFloat, h]
  · intro t
    cases t <;> rfl
  · intro q
    rfl
  · intro wa ca h
    simp [tupleArgsDispatch, h]
  · intro wl cl h
    have hlen : (wl.map PyTok.num).length = (cl.map PyTok.num).length := by
      simp [h]
    have hzip : (wl.map PyTok.num).zip (cl.map PyTok.num)
        = (wl.zip cl).map (Prod.map PyTok.num PyTok.num) := by
      rw [List.zip_map]
    by_cases hany : (wl.zip cl).any (fun p => decide (p.1 > p.2))
    · simp [tupleArgsDispatch, hlen, hzip, anyPairGT_num, hany]
    · simp [tupleArgsDispatch, hlen, hzip, anyPairGT_num, hany]

/-- C2 witness: concrete inverted scalar thresholds (`warn = 10`, `crit = 5`)
are rejected before any measurement. -/
theorem argument_validation_amended_witness :
    scalarArgsDispatch [PyTok.num 10, PyTok.num 5] = ScalarDispatch.reject :=
  argument_validation_amended.1 10 5 (by norm_num)

/-- C3: the threshold comparison is inclusive for every probe: a value exactly
equal to crit classifies as CRITICAL (code 2), and a value equal to warn but
below crit classifies as WARNING (code 1) — in the shared scalar comparison,
in the tuple loops of `check_procs` and `check_load`, in the pair comparison
of `check_diskio` (for the tie on the read rate, with the write rate below its
thresholds), and in the bandwidth comparison of `check_net` (for the tie on
the RX rate, with TX below its thresholds and no packet errors). -/
theorem threshold_tiebreak_inclusive (w c : ℚ) (hwc : w < c) :
    classify c w c = 2 ∧ classify w w c = 1
    ∧ (procsClassify [("running", c, some (w, c))]).1 = 2
    ∧ (procsClassify [("running", w, some (w, c))]).1 = 1
    ∧ (loadClassify [(c, some (w, c))]).1 = 2
    ∧ (loadClassify [(w, some (w, c))]).1 = 1
    ∧ (∀ w1 c1 ws : ℚ, (diskioPairClassify c ws (some ((w, w1), (c, c1)))).1 = 2)
    ∧ (∀ w1 c1 ws : ℚ, ws < w1 → ws < c1 →
        (diskioPairClassify w ws (some ((w, w1), (c, c1)))).1 = 1)
    ∧ (∀ w1 c1 tx : ℚ, ∀ code : ℕ,
        (netBwClassify c tx code 0 (some ((w, w1), (c, c1)))).1 = 2)
    ∧ (∀ w1 c1 tx : ℚ, tx < w1 → tx < c1 →
        (netBwClassify w tx 0 0 (some ((w, w1), (c, c1)))).1 = 1) := by
  have hcw : ¬ (w ≥ c) := not_le.mpr hwc
  refine ⟨?_, ?_, ?_, ?_, ?_, ?_, ?_, ?_, ?_, ?_⟩
  · simp [classify]
  · simp [classify, hcw]
  · simp [procsClassify, procsStep]
  · simp [procsClassify, procsStep, hcw]
  · simp [loadClassify, loadStep]
  · simp [loadClassify, loadStep, hcw]
  · intro w1 c1 ws
    simp [diskioPairClassify]
  · intro w1 c1 ws h1 h2
    simp [diskioPairClassify, hcw, not_le.mpr h1, not_le.mpr h2]
  · intro w1 c1 tx code
    simp [netBwClassify]
  · intro w1 c1 tx h1 h2
    simp [netBwClassify, hcw, not_le.mpr h1, not_le.mpr h2]

/-- C3 witness at `warn = 1`, `crit = 2`. -/
theorem threshold_tiebreak_inclusive_witness : classify 2 1 2 = 2 :=
  (threshold_tiebreak_inclusive 1 2 (by norm_num)).1

/-- C4: in `check_net`, if every hard-error counter delta is non-negative and
at least one of them is non-zero, the status is CRITICAL (2) and the bandwidth
warn/crit thresholds are not evaluated in that invocation, whatever the
elapsed period, the byte counters (hence RX/TX rates) and the supplied
thresholds are. -/
theorem net_error_dominance (d : NetCounters) (sp : ℚ)
    (wc : Option ((ℚ × ℚ) × (ℚ × ℚ))) (hsp : sp ≠ 0)
    (h0 : ∀ x ∈ netErrorFields d, 0 ≤ x) (hne : ∃ x ∈ netErrorFields d, x ≠ 0) :
    check_net_core d sp wc = Except.ok (2, false, []) := by
  have h := netErrFold_pos (netErrorFields d) 0 le_rfl h0 hne
  have hpk : (netErrFold (netErrorFields d)).1 ≠ 0 := ne_of_gt h.1
  have hcode : (netErrFold (netErrorFields d)).2 = 2 := h.2
  cases wc with
  | none => simp [check_net_core, netBwClassify, hsp, hcode]
  | some p =>
      obtain ⟨⟨w0, w1⟩, c0, c1⟩ := p
      simp [check_net_core, netBwClassify, hsp, hpk, hcode]

/-- C4 witness: one receive-error delta of 1, all other error counters zero,
elapsed 1 s, generous bandwidth thresholds: CRITICAL and no bandwidth
evaluation. -/
theorem net_error_dominance_witness :
    check_net_core ⟨0, 0, 1, 0, 0, 0, 0, 0, 0, 0, 0, 0, 0, 0, 0, 0⟩ 1
        (some ((1000, 1000), (2000, 2000))) = Except.ok (2, false, []) :=
  net_error_dominance ⟨0, 0, 1, 0, 0, 0, 0, 0, 0, 0, 0, 0, 0, 0, 0, 0⟩ 1
    (some ((1000, 1000), (2000, 2000))) (by norm_num) (by decide) (by decide)

/-- C5: the overall status code of the `check_procs` and `check_load`
classification loops equals the maximum of the individual sub-metric
severities (so a later OK/WARNING sub-metric never downgrades an earlier
CRITICAL), and in the concrete `procs` scenario where only `running` breaches
its critical bound the result is CRITICAL with `running` named in the
appended severity strings. -/
theorem overall_severity_is_max :
    (∀ items, (procsClassify items).1 = (items.map specSubSeverity).foldl max 0)
    ∧ (∀ items, (loadClassify items).1 = (items.map specLoadSeverity).foldl max 0)
    ∧ procsClassify [("total", 100, some (500, 800)), ("running", 50, some (10, 20)),
        ("waiting", 0, some (5, 10))] = (2, ["(OK)", "(Critical running)", "(OK)"]) := by
  refine ⟨?_, ?_, ?_⟩
  · intro items
    exact procsFold_max items 0 [] (by omega)
  · intro items
    exact loadFold_max items 0 [] (by omega)
  · rfl

/-- C6: with a non-zero total delta, each CPU field percentage
`100 - 100*(total - delta)/total` equals `100*delta/total`; the reported busy
value `cpu_pcts['cpu']` is `100 - idle%`; and for the hand-computed sample
with total delta 90 and idle delta 20 the busy value is exactly `700/9`
(≈ 77.78%). -/
theorem cpu_rate_formula (prev cur : List ℤ) (htot : cpuTotal prev cur ≠ 0) :
    cpuPercents prev cur =
      Except.ok ((cpuDeltas prev cur).map
        (fun x => 100 * (x : ℚ) / ((cpuTotal prev cur : ℤ) : ℚ)))
    ∧ (∀ ps s, cpu_pcts ps = Except.ok s → s.cpu = 100 - s.idle)
    ∧ check_cpu_busy [100, 0, 50, 850, 0, 0, 0] [150, 0, 70, 870, 0, 0, 0]
      = Except.ok (700 / 9) := by
  refine ⟨?_, ?_, ?_⟩
  · have hq : ((cpuTotal prev cur : ℤ) : ℚ) ≠ 0 := Int.cast_ne_zero.mpr htot
    rw [cpuPercents, if_neg (by intro hand; exact htot hand.1)]
    refine congrArg Except.ok (list_map_ext _ _ _ ?_)
    intro x hx
    field_simp
    ring
  · intro ps s h
    by_cases h7 : 7 ≤ ps.length
    · rw [cpu_pcts, if_pos h7] at h
      cases h
      rfl
    · rw [cpu_pcts, if_neg h7] at h
      cases h
  · have hps : cpuPercents [100, 0, 50, 850, 0, 0, 0] [150, 0, 70, 870, 0, 0, 0]
        = Except.ok [500 / 9, 0, 200 / 9, 200 / 9, 0, 0, 0] := by
      rw [cpuPercents]
      norm_num [cpuDeltas, cpuTotal, List.zipWith]
    rw [check_cpu_busy, check_cpu_pcts, hps]
    norm_num [cpu_pcts, List.getD]

/-- C6 witness at the spec's sample: user 100→150, system 50→70,
idle 850→870. -/
theorem cpu_rate_formula_witness :
    cpuPercents [100, 0, 50, 850, 0, 0, 0] [150, 0, 70, 870, 0, 0, 0] =
      Except.ok ((cpuDeltas [100, 0, 50, 850, 0, 0, 0] [150, 0, 70, 870, 0, 0, 0]).map
        (fun x => 100 * (x : ℚ)
          / ((cpuTotal [100, 0, 50, 850, 0, 0, 0] [150, 0, 70, 870, 0, 0, 0] : ℤ) : ℚ))) :=
  (cpu_rate_formula [100, 0, 50, 850, 0, 0, 0] [150, 0, 70, 870, 0, 0, 0] (by decide)).1

/-- C7: every delta-based probe invoked with no existing snapshot for its
stream writes exactly one snapshot (a copy of the current raw reading), prints
the informational first-run message, and exits 0 — no classification is
attempted (the outcome carries no severity).  For `diskio` this is the
behaviour once the device was found, since its device lookup precedes the
snapshot check; for `network` the snapshot check comes first, so it holds for
any current reading. -/
theorem first_run_bootstrap :
    (∀ cur wc, check_cpu_run none cur wc =
       (ProbeOutcome.firstRun "This was the first run, run again to get values", [cur]))
    ∧ (∀ curForks sp entries wc, check_procs_run none curForks sp entries wc =
       (ProbeOutcome.firstRun "This was the first run, run again to get values", [curForks]))
    ∧ (∀ device procLine sp wc, check_diskio_run device true none procLine sp wc =
       (ProbeOutcome.firstRun
          ("This was the first run, run again to get values: diskio(" ++ device ++ ")"),
        [procLine]))
    ∧ (∀ iface cur sp wc, check_net_run iface none cur sp wc =
       (ProbeOutcome.firstRun ("This was the first run, run again to get values: net:" ++ iface),
        [cur]))
    ∧ (∀ msg, exitCodeOf (ProbeOutcome.firstRun msg) = 0) := by
  refine ⟨fun cur wc => rfl, fun curForks sp entries wc => rfl,
          fun device procLine sp wc => ?_, fun iface cur sp wc => rfl, fun msg => rfl⟩
  rfl

/-- C8: whenever the configured swap total is zero, `check_swap` reports
status 0 with the explanatory message and an empty perfdata list — no
thresholds are emitted and no classification is performed, whatever warn/crit
arguments were supplied. -/
theorem swap_zero_short_circuit (si : SwapInfo) (wc : Option (ℚ × ℚ))
    (h : si.total = 0) :
    check_swap si wc
      = ProbeOutcome.report 0 ["No swap space configured on this system"] [] := by
  simp [check_swap, h]

/-- C8 witness at `SwapTotal = 0` with thresholds 80/90 supplied. -/
theorem swap_zero_short_circuit_witness :
    check_swap ⟨0, 0, 0⟩ (some (80, 90))
      = ProbeOutcome.report 0 ["No swap space configured on this system"] [] :=
  swap_zero_short_circuit ⟨0, 0, 0⟩ (some (80, 90)) rfl

/-- C9: in `check_procs`, the per-state buckets only count entries whose stat
file was readable while `total` counts every enumerated entry, so
`running + sleeping + waiting + zombie + others ≤ total`, with equality
exactly when every enumerated entry was readable. -/
theorem procs_total_dominates_states (entries : List ProcEntry) :
    (procsTally entries).running + (procsTally entries).sleeping
      + (procsTally entries).waiting + (procsTally entries).zombie
      + (procsTally entries).others ≤ (procsTally entries).total
    ∧ ((procsTally entries).total =
        (procsTally entries).running + (procsTally entries).sleeping
          + (procsTally entries).waiting + (procsTally entries).zombie
          + (procsTally entries).others
        ↔ ∀ e ∈ entries, e ≠ ProcEntry.unreadable) := by
  have hpart := charStates_partition (readableStates entries)
  have hlen1 := (readableStates_length entries).1
  have hlen2 := (readableStates_length entries).2
  simp only [procsTally]
  constructor
  · omega
  · constructor
    · intro h
      exact hlen2.mp (by omega)
    · intro h
      have := hlen2.mpr h
      omega

/-- C10: when percentage thresholds are supplied to `check_memory` and
`check_swap`, the thresholds emitted next to the `used` perfdata token are the
absolute megabyte values `int(total_MB * warn / 100)` and
`int(total_MB * crit / 100)` (plus a `0;int(total_MB)` min/max pair), while
the status code comes from comparing the used percentage against the supplied
percentage thresholds. -/
theorem mem_swap_mb_thresholds (mi : Meminfo) (si : SwapInfo) (w c : ℚ)
    (hm : mi.total ≠ 0) (hs : si.total ≠ 0) :
    perfLookup (perfOf (check_memory mi (some (w, c)))) "used" =
      some ⟨"used", memUsedMB mi,
        some (((pyInt (memTotalMB mi * w / 100) : ℤ) : ℚ),
              ((pyInt (memTotalMB mi * c / 100) : ℤ) : ℚ)),
        some (0, ((pyInt (memTotalMB mi) : ℤ) : ℚ))⟩
    ∧ exitCodeOf (check_memory mi (some (w, c))) = classify (memUsedP mi) w c
    ∧ perfLookup (perfOf (check_swap si (some (w, c)))) "used" =
      some ⟨"used", swapUsedMB si,
        some (((pyInt (swapTotalMB si * w / 100) : ℤ) : ℚ),
              ((pyInt (swapTotalMB si * c / 100) : ℤ) : ℚ)),
        some (0, ((pyInt (swapTotalMB si) : ℤ) : ℚ))⟩
    ∧ exitCodeOf (check_swap si (some (w, c))) = classify (swapUsedP si) w c := by
  refine ⟨?_, ?_, ?_, ?_⟩ <;>
    simp [check_memory, check_swap, hm, hs, perfOf, perfLookup, memPerfToks,
      swapPerfToks, exitCodeOf, List.find?]

/-- C10 witness: 2 MB of memory (2048 kB), 1 MB of swap, thresholds 50/90. -/
theorem mem_swap_mb_thresholds_witness :
    exitCodeOf (check_memory ⟨2048, 0, 0, 0, 0⟩ (some (50, 90)))
      = classify (memUsedP ⟨2048, 0, 0, 0, 0⟩) 50 90 :=
  (mem_swap_mb_thresholds ⟨2048, 0, 0, 0, 0⟩ ⟨1024, 512, 0⟩ 50 90
    (by decide) (by decide)).2.1
